import Mathlib

/-
Verification of the KvantoBot web API (src/server.js): a shallow embedding
of the Express request handlers and the two Discord helper calls, with the
external provider modelled as an oracle (`World`) mapping each outbound
call to the HTTP response the provider would return.
-/

namespace KvantoBot

/-- JavaScript value for the request body's `code` field.  The handler
destructures `req.body`, so `code` may be `undefined`, `null`, a string,
a number, or some other object. -/
inductive JsValue where
  | vUndefined
  | vNull
  | vStr (s : String)
  | vNum (n : Int)
  | vObj
deriving DecidableEq, Repr

/-- JavaScript truthiness, as tested by `if (!code)` in server.js line 37:
`undefined`, `null`, the empty string and the number 0 are falsy. -/
def JsValue.truthy : JsValue → Bool
  | .vUndefined => false
  | .vNull => false
  | .vStr s => s != ""
  | .vNum n => n != 0
  | .vObj => true

/-- Whether the value is a string, hence has a `.substring` method
(used on server.js line 41). -/
def JsValue.isString : JsValue → Bool
  | .vStr _ => true
  | _ => false

/-- Rendering of a possibly-absent JS string inside a template literal:
`undefined` prints as the text "undefined". -/
def jsShowOpt : Option String → String
  | some s => s
  | none => "undefined"

/-- JavaScript truthiness of a possibly-absent string field of a parsed
JSON body: absent (undefined) and the empty string are falsy. -/
def truthyOpt : Option String → Bool
  | some s => s != ""
  | none => false

/-- Parsed JSON body returned by the provider's token endpoint
(fields read by server.js: `access_token`, `error`, `error_description`). -/
structure TokenBody where
  access_token : Option String
  error : Option String
  error_description : Option String
deriving DecidableEq, Repr

/-- Parsed JSON body returned by the provider's profile endpoint.
On success the whole object is returned to the caller as `user`;
on failure server.js reads its `message` field. -/
structure ProfileBody where
  id : Option String
  username : Option String
  discriminator : Option String
  avatar : Option String
  email : Option String
  message : Option String
deriving DecidableEq, Repr

/-- An HTTP response from the provider: status plus already-parsed JSON
body (server.js always runs `await response.json()` before inspecting
`response.ok`, so the body is available in both branches). -/
structure HttpResp (β : Type) where
  status : Nat
  body : β
deriving DecidableEq, Repr

/-- The WHATWG fetch `Response.ok` flag: status in the range 200..299. -/
def HttpResp.ok {β : Type} (r : HttpResp β) : Bool :=
  decide (200 ≤ r.status) && decide (r.status < 300)

/-- The outbound token-exchange request built by `exchangeCodeForToken`
(server.js lines 69-86): URL, method, content type, and the
form-encoded fields in order. -/
structure TokenRequest where
  url : String
  method : String
  contentType : String
  form : List (String × String)
deriving DecidableEq, Repr

/-- The outbound profile request built by `fetchDiscordUserInfo`
(server.js lines 99-106). -/
structure ProfileRequest where
  url : String
  method : String
  authorization : String
deriving DecidableEq, Repr

/-- Process configuration read from the environment by server.js. -/
structure Config where
  DISCORD_CLIENT_ID : String
  DISCORD_CLIENT_SECRET : String
  DISCORD_REDIRECT_URI : String
deriving DecidableEq, Repr

/-- The token-exchange request: `new URLSearchParams({...})` posted with
content type application/x-www-form-urlencoded (server.js lines 70-86). -/
def tokenRequest (cfg : Config) (code : String) : TokenRequest :=
  { url := "https://discord.com/api/oauth2/token"
    method := "POST"
    contentType := "application/x-www-form-urlencoded"
    form := [("client_id", cfg.DISCORD_CLIENT_ID),
             ("client_secret", cfg.DISCORD_CLIENT_SECRET),
             ("grant_type", "authorization_code"),
             ("code", code),
             ("redirect_uri", cfg.DISCORD_REDIRECT_URI)] }

/-- The profile request: GET with a bearer Authorization header
(server.js lines 102-106). -/
def profileRequest (accessToken : String) : ProfileRequest :=
  { url := "https://discord.com/api/v10/users/@me"
    method := "GET"
    authorization := "Bearer " ++ accessToken }

/-- The provider diagnostic used in the thrown message on token-exchange
failure: the template `${result.error_description || result.error}`
(server.js line 92). -/
def TokenBody.errText (b : TokenBody) : String :=
  jsShowOpt (if truthyOpt b.error_description then b.error_description else b.error)

/-- Embedding of `exchangeCodeForToken` (server.js lines 69-96) applied to
the provider's response: the JSON body is parsed first; on a non-ok
status the function throws `Token exchange failed: <diagnostic>`,
otherwise it returns the parsed body. -/
def exchangeCodeForToken (resp : HttpResp TokenBody) : Except String TokenBody :=
  if resp.ok then .ok resp.body
  else .error ("Token exchange failed: " ++ resp.body.errText)

/-- Embedding of `fetchDiscordUserInfo` (server.js lines 99-116) applied to
the provider's response: on a non-ok status it throws
`Failed to fetch user info: <message>`, otherwise it returns the body. -/
def fetchDiscordUserInfo (resp : HttpResp ProfileBody) : Except String ProfileBody :=
  if resp.ok then .ok resp.body
  else .error ("Failed to fetch user info: " ++ jsShowOpt resp.body.message)

/-- The external provider as an oracle: the response of the token endpoint
for this request, and the response of the profile endpoint as a function
of the bearer token presented. -/
structure World where
  tokenResp : HttpResp TokenBody
  profileResp : String → HttpResp ProfileBody

/-- JSON body sent back to the caller by server.js: each constructor lists
exactly the top-level fields the corresponding `res.json({...})` has. -/
inductive RespBody where
  | errorOnly (error : String)
  | errorDetails (error details : String)
  | success (access_token : String) (user : ProfileBody)
  | healthBody (status service timestamp : String)
deriving DecidableEq, Repr

/-- The handler's HTTP response: status code and JSON body. -/
structure HttpOut where
  status : Nat
  body : RespBody
deriving DecidableEq, Repr

/-- An outbound network call made while handling a request. -/
inductive Call where
  | tokenExchange (req : TokenRequest)
  | profileFetch (req : ProfileRequest)
deriving DecidableEq, Repr

/-- Message of the TypeError raised by `code.substring(0, 10)`
(server.js line 41) when `code` is truthy but not a string. -/
def substringTypeError : String := "code.substring is not a function"

/-- Embedding of the POST /api/auth/discord/callback handler
(server.js lines 33-66).  Returns the HTTP response together with the
ordered list of outbound calls made.  Control flow follows the source:
falsy `code` → 400 before any call; truthy non-string `code` → the
logging line throws a TypeError, caught by the handler's catch block →
500, before any call; then the token exchange (the fetch always runs,
so the call is recorded even when the helper throws); a thrown
`Token exchange failed` error is caught → 500 with the message as
`details`; a parsed body without a truthy `access_token` → 400; then
the profile fetch; a thrown `Failed to fetch user info` error is
caught → 500; otherwise 200 with `access_token` and `user`. -/
def discordCallback (cfg : Config) (w : World) (code : JsValue) :
    HttpOut × List Call :=
  if code.truthy = false then
    (⟨400, .errorOnly "Authorization code is required"⟩, [])
  else
    match code with
    | .vStr s =>
      let req := tokenRequest cfg s
      match exchangeCodeForToken w.tokenResp with
      | .error msg =>
        (⟨500, .errorDetails "Internal server error" msg⟩, [.tokenExchange req])
      | .ok tb =>
        match tb.access_token with
        | none =>
          (⟨400, .errorOnly "Failed to get access token"⟩, [.tokenExchange req])
        | some tok =>
          if tok = "" then
            (⟨400, .errorOnly "Failed to get access token"⟩, [.tokenExchange req])
          else
            match fetchDiscordUserInfo (w.profileResp tok) with
            | .error msg =>
              (⟨500, .errorDetails "Internal server error" msg⟩,
               [.tokenExchange req, .profileFetch (profileRequest tok)])
            | .ok user =>
              (⟨200, .success tok user⟩,
               [.tokenExchange req, .profileFetch (profileRequest tok)])
    | _ =>
      (⟨500, .errorDetails "Internal server error" substringTypeError⟩, [])

/-- Embedding of the GET /api/health handler (server.js lines 24-30):
`res.json` with the default 200 status; `nowIso` is the ISO-8601
rendering `new Date().toISOString()` of the current time.  The handler
consults no external dependency. -/
def healthHandler (nowIso : String) : HttpOut :=
  ⟨200, .healthBody "ok" "KvantoBot Web API" nowIso⟩

/-- Whether a response body is an error shape: only an `error` field and
possibly a `details` field, in particular no `access_token` or `user`. -/
def RespBody.isErr : RespBody → Bool
  | .errorOnly _ => true
  | .errorDetails _ _ => true
  | _ => false

/-- A sample configuration used for concrete evaluations. -/
def cfg0 : Config :=
  ⟨"client-id-0", "client-secret-0", "http://localhost:4200/auth/callback"⟩

/-- A profile body with no fields present. -/
def emptyProfile : ProfileBody := ⟨none, none, none, none, none, none⟩

/-- World in which the token endpoint answers status 400 with body
`error: "invalid_grant"` (spec scenario C). -/
def wExchangeFail : World :=
  { tokenResp := ⟨400, ⟨none, some "invalid_grant", none⟩⟩
    profileResp := fun _ => ⟨200, emptyProfile⟩ }

/-- Claim C1 counterexample: with code "expired" and the token endpoint
answering status 400 with body `error: "invalid_grant"`, the handler
responds with status 500 — a server error, not the 400-class client
error the claim states. -/
theorem C1_counterexample :
    (discordCallback cfg0 wExchangeFail (.vStr "expired")).1.status = 500 ∧
    ¬ (400 ≤ (discordCallback cfg0 wExchangeFail (.vStr "expired")).1.status ∧
       (discordCallback cfg0 wExchangeFail (.vStr "expired")).1.status < 500) := by
  decide

/-- Claim C1 (amended): for every request with a truthy string code where the
token-exchange call returns a non-success HTTP status, the handler responds
with HTTP 500 whose `details` field contains the provider's error text
(`error_description` or `error`), and the profile endpoint is never
called. -/
theorem C1_exchangeFail_serverError (cfg : Config) (w : World) (s : String)
    (hs : s ≠ "") (hfail : w.tokenResp.ok = false) :
    (discordCallback cfg w (.vStr s)).1 =
      ⟨500, .errorDetails "Internal server error"
        ("Token exchange failed: " ++ w.tokenResp.body.errText)⟩ ∧
    ∀ r, Call.profileFetch r ∉ (discordCallback cfg w (.vStr s)).2 := by
  simp [discordCallback, JsValue.truthy, hs, exchangeCodeForToken, hfail]

/-- Claim C1 witness: the amended theorem at a concrete failing exchange. -/
theorem C1_exchangeFail_serverError_witness :
    (discordCallback cfg0 wExchangeFail (.vStr "expired")).1 =
      ⟨500, .errorDetails "Internal server error"
        ("Token exchange failed: " ++ wExchangeFail.tokenResp.body.errText)⟩ ∧
    ∀ r, Call.profileFetch r ∉ (discordCallback cfg0 wExchangeFail (.vStr "expired")).2 :=
  C1_exchangeFail_serverError cfg0 wExchangeFail "expired" (by decide) (by decide)

/-- Claim C3: for every request whose code field is absent, null, or the
empty string, the handler returns HTTP 400 with body
`error: "Authorization code is required"` and makes zero outbound calls. -/
theorem C3_missingCode (cfg : Config) (w : World) (code : JsValue)
    (h : code = .vUndefined ∨ code = .vNull ∨ code = .vStr "") :
    discordCallback cfg w code =
      (⟨400, .errorOnly "Authorization code is required"⟩, []) := by
  rcases h with h | h | h <;> subst h <;> rfl

/-- Claim C3 witness: the theorem at the empty-string code of scenario B. -/
theorem C3_missingCode_witness :
    discordCallback cfg0 wExchangeFail (.vStr "") =
      (⟨400, .errorOnly "Authorization code is required"⟩, []) :=
  C3_missingCode cfg0 wExchangeFail (.vStr "") (Or.inr (Or.inr rfl))

/-- Claim C8: every GET to the health path returns HTTP 200 with `status`
field "ok", the service name, and the ISO-8601 timestamp of the current
time; the handler consults no external dependency. -/
theorem C8_health (nowIso : String) :
    healthHandler nowIso = ⟨200, .healthBody "ok" "KvantoBot Web API" nowIso⟩ :=
  rfl

/-- Claim C9: for every request whose code is truthy but not a string, the
handler returns HTTP 500 with the generic internal-error body (the
TypeError from `code.substring` reaches the catch block) and makes zero
outbound calls. -/
theorem C9_nonStringCode (cfg : Config) (w : World) (code : JsValue)
    (ht : code.truthy = true) (hns : code.isString = false) :
    discordCallback cfg w code =
      (⟨500, .errorDetails "Internal server error" substringTypeError⟩, []) := by
  cases code <;> simp_all [JsValue.truthy, JsValue.isString, discordCallback]

/-- Claim C9 witness: the theorem at the numeric code 5. -/
theorem C9_nonStringCode_witness :
    discordCallback cfg0 wExchangeFail (.vNum 5) =
      (⟨500, .errorDetails "Internal server error" substringTypeError⟩, []) :=
  C9_nonStringCode cfg0 wExchangeFail (.vNum 5) (by decide) (by decide)

/-- Claim C2: in every execution of the callback handler, a profile fetch
appears in the outbound-call trace only if the token exchange returned a
success status with a non-empty access_token; the trace then consists of
the token exchange followed by the profile fetch for that token. -/
theorem C2_profileOnlyAfterToken (cfg : Config) (w : World) (code : JsValue)
    (r : ProfileRequest)
    (h : Call.profileFetch r ∈ (discordCallback cfg w code).2) :
    w.tokenResp.ok = true ∧
    ∃ s tok, code = .vStr s ∧ tok ≠ "" ∧
      w.tokenResp.body.access_token = some tok ∧
      r = profileRequest tok ∧
      (discordCallback cfg w code).2 =
        [Call.tokenExchange (tokenRequest cfg s),
         Call.profileFetch (profileRequest tok)] := by
  cases code with
  | vUndefined => simp [discordCallback, JsValue.truthy] at h
  | vNull => simp [discordCallback, JsValue.truthy] at h
  | vNum n =>
    by_cases hn : (JsValue.vNum n).truthy = false
    · simp [discordCallback, hn] at h
    · simp [discordCallback, hn] at h
  | vObj => simp [discordCallback, JsValue.truthy] at h
  | vStr s =>
    by_cases hs : s = ""
    · subst hs; simp [discordCallback, JsValue.truthy] at h
    · by_cases hok : w.tokenResp.ok = true
      · rcases hat : w.tokenResp.body.access_token with _ | tok
        · simp [discordCallback, JsValue.truthy, hs, exchangeCodeForToken,
                hok, hat] at h
        · by_cases htok : tok = ""
          · subst htok
            simp [discordCallback, JsValue.truthy, hs, exchangeCodeForToken,
                  hok, hat] at h
          · by_cases hpok : (w.profileResp tok).ok = true
            · have htr : (discordCallback cfg w (.vStr s)).2 =
                  [Call.tokenExchange (tokenRequest cfg s),
                   Call.profileFetch (profileRequest tok)] := by
                simp [discordCallback, JsValue.truthy, hs, exchangeCodeForToken,
                      hok, hat, htok, fetchDiscordUserInfo, hpok]
              rw [htr] at h
              simp at h
              exact ⟨hok, s, tok, rfl, htok, rfl, h, htr⟩
            · have htr : (discordCallback cfg w (.vStr s)).2 =
                  [Call.tokenExchange (tokenRequest cfg s),
                   Call.profileFetch (profileRequest tok)] := by
                simp [discordCallback, JsValue.truthy, hs, exchangeCodeForToken,
                      hok, hat, htok, fetchDiscordUserInfo, hpok]
              rw [htr] at h
              simp at h
              exact ⟨hok, s, tok, rfl, htok, rfl, h, htr⟩
      · simp [discordCallback, JsValue.truthy, hs, exchangeCodeForToken,
              hok] at h

/-- World of successful exchange and profile fetch for spec scenario A. -/
def wScenarioA : World :=
  { tokenResp := ⟨200, ⟨some "tok-abc", none, none⟩⟩
    profileResp := fun _ =>
      ⟨200, { emptyProfile with id := some "1", username := some "alice" }⟩ }

/-- Claim C2 witness: the theorem at the successful scenario-A run. -/
theorem C2_profileOnlyAfterToken_witness :
    wScenarioA.tokenResp.ok = true ∧
    ∃ s tok, JsValue.vStr "valid123" = JsValue.vStr s ∧ tok ≠ "" ∧
      wScenarioA.tokenResp.body.access_token = some tok ∧
      profileRequest "tok-abc" = profileRequest tok ∧
      (discordCallback cfg0 wScenarioA (.vStr "valid123")).2 =
        [Call.tokenExchange (tokenRequest cfg0 s),
         Call.profileFetch (profileRequest tok)] :=
  C2_profileOnlyAfterToken cfg0 wScenarioA (.vStr "valid123")
    (profileRequest "tok-abc") (by decide)

/-- World in which the token endpoint answers 200 but with no access_token
in the parsed body. -/
def wNoToken : World :=
  { tokenResp := ⟨200, ⟨none, none, none⟩⟩
    profileResp := fun _ => ⟨200, emptyProfile⟩ }

/-- Claim C4 counterexample: with code "abc" and a success-status exchange
response lacking an access token, the handler's error message is
"Failed to get access token", not the claimed "no access token
returned". -/
theorem C4_counterexample :
    (discordCallback cfg0 wNoToken (.vStr "abc")).1.body =
      .errorOnly "Failed to get access token" ∧
    (discordCallback cfg0 wNoToken (.vStr "abc")).1.body ≠
      .errorOnly "no access token returned" := by
  decide

/-- Claim C4 (amended): for every request with a truthy string code where
the token-exchange call returns a success status but the parsed body
lacks a truthy access token, the handler returns the client error
HTTP 400 with body `error: "Failed to get access token"`, and the
profile endpoint is not called. -/
theorem C4_noUsableToken (cfg : Config) (w : World) (s : String)
    (hs : s ≠ "") (hok : w.tokenResp.ok = true)
    (hat : truthyOpt w.tokenResp.body.access_token = false) :
    (discordCallback cfg w (.vStr s)).1 =
      ⟨400, .errorOnly "Failed to get access token"⟩ ∧
    ∀ r, Call.profileFetch r ∉ (discordCallback cfg w (.vStr s)).2 := by
  rcases hat' : w.tokenResp.body.access_token with _ | tok
  · simp [discordCallback, JsValue.truthy, hs, exchangeCodeForToken, hok, hat']
  · rw [hat'] at hat
    have htok : tok = "" := by simpa [truthyOpt] using hat
    subst htok
    simp [discordCallback, JsValue.truthy, hs, exchangeCodeForToken, hok, hat']

/-- Claim C4 witness: the amended theorem at a token-less 200 response. -/
theorem C4_noUsableToken_witness :
    (discordCallback cfg0 wNoToken (.vStr "abc")).1 =
      ⟨400, .errorOnly "Failed to get access token"⟩ ∧
    ∀ r, Call.profileFetch r ∉ (discordCallback cfg0 wNoToken (.vStr "abc")).2 :=
  C4_noUsableToken cfg0 wNoToken "abc" (by decide) (by decide) (by decide)

/-- Claim C5: for every request where the token exchange succeeds with a
usable access token but the profile call returns a non-success status,
the handler returns HTTP 500 whose `details` field carries the
provider's message, and the response body is never the success shape
(so it has no `user` field). -/
theorem C5_profileFail (cfg : Config) (w : World) (s tok : String)
    (hs : s ≠ "") (hok : w.tokenResp.ok = true)
    (hat : w.tokenResp.body.access_token = some tok) (htok : tok ≠ "")
    (hpf : (w.profileResp tok).ok = false) :
    (discordCallback cfg w (.vStr s)).1 =
      ⟨500, .errorDetails "Internal server error"
        ("Failed to fetch user info: " ++
          jsShowOpt (w.profileResp tok).body.message)⟩ ∧
    ∀ t u, (discordCallback cfg w (.vStr s)).1.body ≠ .success t u := by
  simp [discordCallback, JsValue.truthy, hs, exchangeCodeForToken, hok, hat,
        htok, fetchDiscordUserInfo, hpf]

/-- World in which the exchange succeeds with token tok-1 but the profile
endpoint answers 401 with message "401: Unauthorized". -/
def wProfileFail : World :=
  { tokenResp := ⟨200, ⟨some "tok-1", none, none⟩⟩
    profileResp := fun _ =>
      ⟨401, { emptyProfile with message := some "401: Unauthorized" }⟩ }

/-- Claim C5 witness: the theorem at a concrete failing profile fetch. -/
theorem C5_profileFail_witness :
    (discordCallback cfg0 wProfileFail (.vStr "code1")).1 =
      ⟨500, .errorDetails "Internal server error"
        ("Failed to fetch user info: " ++
          jsShowOpt (wProfileFail.profileResp "tok-1").body.message)⟩ ∧
    ∀ t u, (discordCallback cfg0 wProfileFail (.vStr "code1")).1.body ≠
      .success t u :=
  C5_profileFail cfg0 wProfileFail "code1" "tok-1" (by decide) (by decide)
    (by decide) (by decide) (by decide)

/-- Claim C6: for every request where both the token exchange and the
profile fetch succeed, the handler returns HTTP 200 with a body having
exactly the two top-level fields access_token (the token from step 1)
and user (the full profile body from step 2), after making exactly the
two outbound calls. -/
theorem C6_success (cfg : Config) (w : World) (s tok : String)
    (hs : s ≠ "") (hok : w.tokenResp.ok = true)
    (hat : w.tokenResp.body.access_token = some tok) (htok : tok ≠ "")
    (hpok : (w.profileResp tok).ok = true) :
    discordCallback cfg w (.vStr s) =
      (⟨200, .success tok (w.profileResp tok).body⟩,
       [.tokenExchange (tokenRequest cfg s),
        .profileFetch (profileRequest tok)]) := by
  simp [discordCallback, JsValue.truthy, hs, exchangeCodeForToken, hok, hat,
        htok, fetchDiscordUserInfo, hpok]

/-- Claim C6 witness: spec scenario A — code "valid123", token "tok-abc",
profile with id "1" and username "alice" — yields exactly the 200
response with those two fields. -/
theorem C6_success_witness :
    discordCallback cfg0 wScenarioA (.vStr "valid123") =
      (⟨200, .success "tok-abc"
          { emptyProfile with id := some "1", username := some "alice" }⟩,
       [.tokenExchange (tokenRequest cfg0 "valid123"),
        .profileFetch (profileRequest "tok-abc")]) :=
  C6_success cfg0 wScenarioA "valid123" "tok-abc" (by decide) (by decide)
    (by decide) (by decide) (by decide)

/-- Claim C7: for every invocation of the token-exchange step, the outbound
request is a POST with content type application/x-www-form-urlencoded
whose form body has exactly the five fields client_id, client_secret,
grant_type fixed to "authorization_code", the supplied code, and
redirect_uri — all but the code sourced from configuration; the handler
always places this request first in its trace; and on a non-success
status the parsed JSON body's fields still determine the failure
message (the body is parsed regardless of status). -/
theorem C7_tokenRequestShape (cfg : Config) (code : String) (hc : code ≠ "") :
    (tokenRequest cfg code).method = "POST" ∧
    (tokenRequest cfg code).contentType = "application/x-www-form-urlencoded" ∧
    (tokenRequest cfg code).form =
      [("client_id", cfg.DISCORD_CLIENT_ID),
       ("client_secret", cfg.DISCORD_CLIENT_SECRET),
       ("grant_type", "authorization_code"),
       ("code", code),
       ("redirect_uri", cfg.DISCORD_REDIRECT_URI)] ∧
    (∀ w : World, ∃ rest,
      (discordCallback cfg w (.vStr code)).2 =
        Call.tokenExchange (tokenRequest cfg code) :: rest) ∧
    (∀ resp : HttpResp TokenBody, resp.ok = false →
      exchangeCodeForToken resp =
        .error ("Token exchange failed: " ++ resp.body.errText)) := by
  refine ⟨rfl, rfl, rfl, ?_, ?_⟩
  · intro w
    by_cases hok : w.tokenResp.ok = true
    · rcases hat : w.tokenResp.body.access_token with _ | tok
      · exact ⟨[], by simp [discordCallback, JsValue.truthy, hc,
          exchangeCodeForToken, hok, hat]⟩
      · by_cases htok : tok = ""
        · subst htok
          exact ⟨[], by simp [discordCallback, JsValue.truthy, hc,
            exchangeCodeForToken, hok, hat]⟩
        · by_cases hpok : (w.profileResp tok).ok = true
          · exact ⟨[.profileFetch (profileRequest tok)], by
              simp [discordCallback, JsValue.truthy, hc, exchangeCodeForToken,
                    hok, hat, htok, fetchDiscordUserInfo, hpok]⟩
          · exact ⟨[.profileFetch (profileRequest tok)], by
              simp [discordCallback, JsValue.truthy, hc, exchangeCodeForToken,
                    hok, hat, htok, fetchDiscordUserInfo, hpok]⟩
    · exact ⟨[], by simp [discordCallback, JsValue.truthy, hc,
        exchangeCodeForToken, hok]⟩
  · intro resp hresp
    simp [exchangeCodeForToken, hresp]

/-- Claim C7 witness: the theorem at the sample configuration and the
scenario-A code, with the parse-regardless conjunct evaluated at the
failing exchange response. -/
theorem C7_tokenRequestShape_witness :
    ((tokenRequest cfg0 "valid123").method = "POST" ∧
     (tokenRequest cfg0 "valid123").contentType =
       "application/x-www-form-urlencoded" ∧
     (tokenRequest cfg0 "valid123").form =
       [("client_id", cfg0.DISCORD_CLIENT_ID),
        ("client_secret", cfg0.DISCORD_CLIENT_SECRET),
        ("grant_type", "authorization_code"),
        ("code", "valid123"),
        ("redirect_uri", cfg0.DISCORD_REDIRECT_URI)] ∧
     (∀ w : World, ∃ rest,
       (discordCallback cfg0 w (.vStr "valid123")).2 =
         Call.tokenExchange (tokenRequest cfg0 "valid123") :: rest) ∧
     (∀ resp : HttpResp TokenBody, resp.ok = false →
       exchangeCodeForToken resp =
         .error ("Token exchange failed: " ++ resp.body.errText))) ∧
    exchangeCodeForToken wExchangeFail.tokenResp =
      .error ("Token exchange failed: " ++ wExchangeFail.tokenResp.body.errText) := by
  refine ⟨C7_tokenRequestShape cfg0 "valid123" (by decide), ?_⟩
  exact (C7_tokenRequestShape cfg0 "valid123" (by decide)).2.2.2.2
    wExchangeFail.tokenResp (by decide)

/-- Claim C10: every non-200 response from the callback handler has an
error-shaped body — only an `error` field and possibly `details`, never
`access_token` or `user` — and the error body does not depend on the
value of the access token obtained in step 1: two runs that differ only
in the token string (both usable, with the profile endpoint answering
the same response) produce identical error bodies. -/
theorem C10_errorBodies :
    (∀ (cfg : Config) (w : World) (code : JsValue),
      (discordCallback cfg w code).1.status ≠ 200 →
      ((discordCallback cfg w code).1.body).isErr = true) ∧
    (∀ (cfg : Config) (code : JsValue) (st : Nat) (err errd : Option String)
       (t1 t2 : String) (pr : HttpResp ProfileBody),
      t1 ≠ "" → t2 ≠ "" →
      (discordCallback cfg ⟨⟨st, ⟨some t1, err, errd⟩⟩, fun _ => pr⟩ code).1.status ≠ 200 →
      (discordCallback cfg ⟨⟨st, ⟨some t1, err, errd⟩⟩, fun _ => pr⟩ code).1.body =
      (discordCallback cfg ⟨⟨st, ⟨some t2, err, errd⟩⟩, fun _ => pr⟩ code).1.body) := by
  constructor
  · intro cfg w code h
    cases code with
    | vUndefined => rfl
    | vNull => rfl
    | vNum n =>
      by_cases hn : (JsValue.vNum n).truthy = false
      · simp [discordCallback, hn, RespBody.isErr]
      · simp [discordCallback, hn, RespBody.isErr]
    | vObj => rfl
    | vStr s =>
      by_cases hs : s = ""
      · subst hs; rfl
      · by_cases hok : w.tokenResp.ok = true
        · rcases hat : w.tokenResp.body.access_token with _ | tok
          · simp [discordCallback, JsValue.truthy, hs, exchangeCodeForToken,
                  hok, hat, RespBody.isErr]
          · by_cases htok : tok = ""
            · subst htok
              simp [discordCallback, JsValue.truthy, hs, exchangeCodeForToken,
                    hok, hat, RespBody.isErr]
            · by_cases hpok : (w.profileResp tok).ok = true
              · exact absurd (by
                  simp [discordCallback, JsValue.truthy, hs,
                        exchangeCodeForToken, hok, hat, htok,
                        fetchDiscordUserInfo, hpok]) h
              · simp [discordCallback, JsValue.truthy, hs, exchangeCodeForToken,
                      hok, hat, htok, fetchDiscordUserInfo, hpok,
                      RespBody.isErr]
        · simp [discordCallback, JsValue.truthy, hs, exchangeCodeForToken,
                hok, RespBody.isErr]
  · intro cfg code st err errd t1 t2 pr h1 h2 h
    cases code with
    | vUndefined => rfl
    | vNull => rfl
    | vNum n =>
      by_cases hn : (JsValue.vNum n).truthy = false
      · simp [discordCallback, hn]
      · simp [discordCallback, hn]
    | vObj => rfl
    | vStr s =>
      by_cases hs : s = ""
      · subst hs; rfl
      · by_cases hst : (HttpResp.mk st (TokenBody.mk (some t1) err errd)).ok = true
        · have hst2 : (HttpResp.mk st (TokenBody.mk (some t2) err errd)).ok = true := hst
          by_cases hpok : pr.ok = true
          · exact absurd (by
              simp [discordCallback, JsValue.truthy, hs, exchangeCodeForToken,
                    hst, h1, fetchDiscordUserInfo, hpok]) h
          · simp [discordCallback, JsValue.truthy, hs, exchangeCodeForToken,
                  hst, hst2, h1, h2, fetchDiscordUserInfo, hpok]
        · have hst2 : ¬ (HttpResp.mk st (TokenBody.mk (some t2) err errd)).ok = true := hst
          simp [discordCallback, JsValue.truthy, hs, exchangeCodeForToken,
                hst, hst2, TokenBody.errText]

/-- Claim C10 witness: both conjuncts at concrete runs — a failing exchange
for the error-shape part, and two profile-fetch failures differing only
in the token for the independence part. -/
theorem C10_errorBodies_witness :
    ((discordCallback cfg0 wExchangeFail (.vStr "zz")).1.body).isErr = true ∧
    (discordCallback cfg0 ⟨⟨200, ⟨some "t1", none, none⟩⟩,
        fun _ => ⟨401, { emptyProfile with message := some "boom" }⟩⟩
      (.vStr "zz")).1.body =
    (discordCallback cfg0 ⟨⟨200, ⟨some "t2", none, none⟩⟩,
        fun _ => ⟨401, { emptyProfile with message := some "boom" }⟩⟩
      (.vStr "zz")).1.body :=
  ⟨C10_errorBodies.1 cfg0 wExchangeFail (.vStr "zz") (by decide),
   C10_errorBodies.2 cfg0 (.vStr "zz") 200 none none "t1" "t2"
     ⟨401, { emptyProfile with message := some "boom" }⟩
     (by decide) (by decide) (by decide)⟩

end KvantoBot
